import Mathlib

/-!
Verification development for the LangGraph chatbot repository.

The embedding below translates, from the Python source:
  * `backend/chatbot/utils/validators.py`   (query validation / classification / sanitation)
  * `backend/chatbot/workflows/nodes.py`    (the six workflow nodes over the shared state)
  * `backend/chatbot/workflows/chatbot_graph.py` (the DAG wiring and `process_query`)
  * `backend/chatbot/services/cache_service.py`  (the TTL session cache)

Conventions of the embedding:
  * Python strings are Lean `String`s, scanned as `List Char`.
  * The regular expressions used by the source are small and fixed; each one is
    translated into an explicit scanning function over the character list, with a
    comment recording the pattern it implements.
  * Mutation of the shared state dict becomes functional record update; mutation of
    the class-level cache dict becomes explicit cache-state passing; `datetime.now()`
    becomes an explicit `now` parameter (integer minutes).
  * The external LLM call (`self.llm.invoke`) is a parameter
    `llm : String -> Except String String` (response text, or the exception message).
-/

namespace Chatbot

/-- Python `\s` character class restricted to ASCII:
space, tab, newline, carriage return, vertical tab, form feed. -/
def isSpaceChar (c : Char) : Bool :=
  c == ' ' || c == '\t' || c == '\n' || c == '\r' || c.toNat == 11 || c.toNat == 12

/-- Python `\w` character class restricted to ASCII: letters, digits, underscore. -/
def isWordChar (c : Char) : Bool :=
  c.isAlpha || c.isDigit || c == '_'

/-- Python `str.strip()` on ASCII input: drop whitespace from both ends. -/
def pyStrip (s : String) : String :=
  String.mk (((s.data.dropWhile isSpaceChar).reverse.dropWhile isSpaceChar).reverse)

/-- Scan every suffix of the list (every starting position of a regex search)
and report whether the position predicate matches somewhere.  The empty final
position is not scanned; every pattern in the source needs at least one character. -/
def existsAt (p : List Char → Bool) : List Char → Bool
  | [] => false
  | c :: rest => p (c :: rest) || existsAt p rest

/-- `w` matches at the head of `s` and the character after it (if any) is not a
word character: the literal-word part of a `\bw\b` regex match at this position. -/
def wordMatchAt (w : List Char) (s : List Char) : Bool :=
  w.isPrefixOf s &&
    (match s.drop w.length with
     | [] => true
     | c :: _ => !isWordChar c)

/-- Search for `\b<w>\b` in `s` (for `w` starting and ending in word characters):
scan positions carrying the flag "previous character was a word character". -/
def containsWordAux (w : List Char) : List Char → Bool → Bool
  | [], _ => false
  | c :: rest, prevW =>
    (!prevW && wordMatchAt w (c :: rest)) || containsWordAux w rest (isWordChar c)

/-- `re.search(r'\b<w>\b', s)` for a fixed word/phrase `w`. -/
def containsWord (w : String) (s : List Char) : Bool :=
  containsWordAux w.data s false

/-- Position match for `\bwhat is \d+`: the literal `"what is "` followed by a digit
(the word boundary before `w` is handled by the scanner). -/
def whatIsNumAt (s : List Char) : Bool :=
  "what is ".data.isPrefixOf s &&
    (match s.drop 8 with
     | c :: _ => c.isDigit
     | [] => false)

/-- Scanner for `\bwhat is \d+` (same boundary bookkeeping as `containsWordAux`). -/
def hasWhatIsNumAux : List Char → Bool → Bool
  | [], _ => false
  | c :: rest, prevW =>
    (!prevW && whatIsNumAt (c :: rest)) || hasWhatIsNumAux rest (isWordChar c)

def hasWhatIsNum (s : List Char) : Bool :=
  hasWhatIsNumAux s false

/-- The operator class of the source pattern `[\+\-\*\/\^\%\(\)]`. -/
def mathOpChar (c : Char) : Bool :=
  c == '+' || c == '-' || c == '*' || c == '/' || c == '^' || c == '%' || c == '(' || c == ')'

/-- Position match for `\d+\s*[\+\-\*\/\^\%\(\)]\s*\d+`.  A search match of that
pattern exists iff a single digit, optional whitespace, an operator, optional
whitespace and a digit occur in sequence (take the last digit of the first `\d+`
group and the first digit of the second), so matching one digit on each side is
an equivalent existence test. -/
def mathOpAt : List Char → Bool
  | [] => false
  | c :: rest =>
    c.isDigit &&
      (match rest.dropWhile isSpaceChar with
       | o :: r2 =>
         mathOpChar o &&
           (match r2.dropWhile isSpaceChar with
            | d :: _ => d.isDigit
            | [] => false)
       | [] => false)

/-- `QueryValidator.is_calculation_query` (validators.py lines 88-119):
lowercase the query and search for any of the fixed indicator patterns. -/
def isCalculationQuery (q : String) : Bool :=
  let l := q.data.map Char.toLower
  existsAt mathOpAt l ||
  containsWord "calculate" l ||
  containsWord "compute" l ||
  containsWord "solve" l ||
  hasWhatIsNum l ||
  containsWord "math" l ||
  containsWord "sum of" l ||
  containsWord "product of" l ||
  containsWord "difference" l ||
  containsWord "quotient" l

/-- Helper for the `<script[^>]*>.*?</script>` pattern: after the opening tag,
`.` cannot cross a newline, so a match needs a later `</script>` with no newline
in between. -/
def closeScriptAhead : List Char → Bool
  | [] => false
  | c :: rest =>
    "</script>".data.isPrefixOf (c :: rest) || (c != '\n' && closeScriptAhead rest)

/-- Position match for `<script[^>]*>.*?</script>`:
the literal `<script`, a maximal run of non-`>` characters closed by `>`
(`[^>]*` cannot cross the `>`), then a closing tag reachable without a newline. -/
def scriptAt (s : List Char) : Bool :=
  "<script".data.isPrefixOf s &&
    (let r := s.drop 7
     let inner := r.takeWhile (fun d => d != '>')
     match r.drop inner.length with
     | '>' :: r2 => closeScriptAhead r2
     | _ => false)

/-- Position match for `javascript:`. -/
def javascriptAt (s : List Char) : Bool :=
  "javascript:".data.isPrefixOf s

/-- Position match for `on\w+\s*=`: after the literal `on`, a maximal nonempty
run of word characters, optional whitespace, then `=`.  (Backtracking inside
`\w+`/`\s*` cannot produce a match the maximal-munch scan misses, because word
characters, whitespace and `=` are pairwise disjoint.) -/
def onHandlerAt (s : List Char) : Bool :=
  match s with
  | 'o' :: 'n' :: rest =>
    let w := rest.takeWhile isWordChar
    decide (w.length ≥ 1) &&
      (match (rest.drop w.length).dropWhile isSpaceChar with
       | '=' :: _ => true
       | _ => false)
  | _ => false

/-- `QueryValidator._contains_harmful_content` (validators.py lines 67-86):
search the lowercased query for the three denylist patterns. -/
def containsHarmfulContent (q : String) : Bool :=
  let l := q.data.map Char.toLower
  existsAt scriptAt l || existsAt javascriptAt l || existsAt onHandlerAt l

/-- `QueryValidator.MAX_QUERY_LENGTH`. -/
def MAX_QUERY_LENGTH : Nat := 5000

/-- `QueryValidator.MIN_QUERY_LENGTH`. -/
def MIN_QUERY_LENGTH : Nat := 1

/-- `QueryValidator.validate_query` (validators.py lines 27-65).
The `None` / non-string guards are unrepresentable for a Lean `String` argument.
Returns `(is_valid, error_message)`, with `""` standing for Python `None`. -/
def validateQuery (q : String) : Bool × String :=
  if (pyStrip q).length < MIN_QUERY_LENGTH then (false, "Query is too short")
  else if (pyStrip q).length > MAX_QUERY_LENGTH then
    (false, "Query is too long (max 5000 characters)")
  else if containsHarmfulContent (pyStrip q) then
    (false, "Query contains potentially harmful content")
  else (true, "")

/-- `re.sub(r'<[^>]+>', '', query)`: left-to-right, non-overlapping removal of
`<`, one or more non-`>` characters, `>`.  Fuel-indexed so that the kernel can
evaluate it; every recursive call shortens the list, so fuel `l.length + 1`
(supplied by `removeTags`) never runs out. -/
def removeTagsAux : Nat → List Char → List Char
  | 0, l => l
  | _, [] => []
  | fuel + 1, c :: rest =>
    if c = '<' ∧ rest.takeWhile (fun d => d != '>') ≠ [] ∧
        (rest.drop (rest.takeWhile (fun d => d != '>')).length).head? = some '>' then
      removeTagsAux fuel ((rest.drop (rest.takeWhile (fun d => d != '>')).length).tail)
    else
      c :: removeTagsAux fuel rest

def removeTags (l : List Char) : List Char :=
  removeTagsAux (l.length + 1) l

/-- `re.sub(r'\s+', ' ', query)`: collapse every whitespace run to one space.
The flag records "inside a whitespace run". -/
def collapseWsAux : List Char → Bool → List Char
  | [], _ => []
  | c :: rest, inRun =>
    if isSpaceChar c then
      if inRun then collapseWsAux rest true else ' ' :: collapseWsAux rest true
    else c :: collapseWsAux rest false

def collapseWs (l : List Char) : List Char :=
  collapseWsAux l false

/-- `QueryValidator.sanitize_query` (validators.py lines 121-141):
remove HTML tags, collapse whitespace, strip. -/
def sanitizeQuery (q : String) : String :=
  pyStrip (String.mk (collapseWs (removeTags q.data)))

/-- Case-insensitive prefix test: `w` (already lowercase) against the lowercased
head of `s`. -/
def ciHasPre : List Char → List Char → Bool
  | [], _ => true
  | _ :: _, [] => false
  | a :: w, b :: s => (a == b.toLower) && ciHasPre w s

/-- Length of the alternation match (0 for no match) at this position for
`re.sub(r'(calculate|compute|what is|solve|the|result|of|=|\?)', '', query,
flags=IGNORECASE)` - the alternatives are tried in the written order, as Python
does. -/
def fillerLen (s : List Char) : Nat :=
  if ciHasPre "calculate".data s then 9
  else if ciHasPre "compute".data s then 7
  else if ciHasPre "what is".data s then 7
  else if ciHasPre "solve".data s then 5
  else if ciHasPre "the".data s then 3
  else if ciHasPre "result".data s then 6
  else if ciHasPre "of".data s then 2
  else if ciHasPre "=".data s then 1
  else if ciHasPre "?".data s then 1
  else 0

/-- Left-to-right, non-overlapping removal of the filler alternation
(the `re.sub` in `_extract_math_expression`).  Fuel-indexed for kernel
evaluation; a match consumes at least one character, so fuel `l.length + 1`
(supplied by `stripFiller`) never runs out. -/
def stripFillerAux : Nat → List Char → List Char
  | 0, l => l
  | _, [] => []
  | fuel + 1, c :: rest =>
    if fillerLen (c :: rest) = 0 then c :: stripFillerAux fuel rest
    else stripFillerAux fuel ((c :: rest).drop (fillerLen (c :: rest)))

def stripFiller (l : List Char) : List Char :=
  stripFillerAux (l.length + 1) l

/-- `WorkflowNodes._extract_math_expression` (nodes.py lines 306-332):
strip the filler words, trim whitespace, fall back to the original query when
the stripped expression is empty (`expression` is inlined at its uses). -/
def extractMathExpression (query : String) : String :=
  if pyStrip (String.mk (stripFiller query.data)) = "" then query
  else pyStrip (String.mk (stripFiller query.data))

/-! ### Model of the external expression evaluator

`tool_node` evaluates the extracted expression with
`numexpr.evaluate(expression).item()`.  `numexpr` is a third-party library, not
code of this repository, so it is modelled from the spec. -/

/-- Token alphabet of the modelled evaluator. -/
inductive Tok where
  | num (n : Int)
  | plus
  | minus
  | star
  | slash
  | percent
  | lparen
  | rparen
deriving Repr, DecidableEq

/-- Decimal value of a digit run (most significant first). -/
def digitsVal : List Char → Nat → Nat
  | [], acc => acc
  | c :: rest, acc => digitsVal rest (acc * 10 + (c.toNat - '0'.toNat))

/-- Modelled from the spec: tokenizer of the external sandboxed
numeric-expression evaluator (spec section 6: `evaluate(expression) -> number`,
fallible on malformed input, arithmetic operators only).  Restricted to integer
literals, `+ - * / %` and parentheses; any other character is a tokenize
failure. -/
def tokenizeExprAux : Nat → List Char → Option (List Tok)
  | 0, _ => none
  | _, [] => some []
  | fuel + 1, c :: rest =>
    if isSpaceChar c then tokenizeExprAux fuel rest
    else if c.isDigit then
      (tokenizeExprAux fuel ((c :: rest).drop ((c :: rest).takeWhile Char.isDigit).length)).map
        (Tok.num (Int.ofNat (digitsVal ((c :: rest).takeWhile Char.isDigit) 0)) :: ·)
    else if c == '+' then (tokenizeExprAux fuel rest).map (Tok.plus :: ·)
    else if c == '-' then (tokenizeExprAux fuel rest).map (Tok.minus :: ·)
    else if c == '*' then (tokenizeExprAux fuel rest).map (Tok.star :: ·)
    else if c == '/' then (tokenizeExprAux fuel rest).map (Tok.slash :: ·)
    else if c == '%' then (tokenizeExprAux fuel rest).map (Tok.percent :: ·)
    else if c == '(' then (tokenizeExprAux fuel rest).map (Tok.lparen :: ·)
    else if c == ')' then (tokenizeExprAux fuel rest).map (Tok.rparen :: ·)
    else none

/-- Fuel-indexed tokenizer wrapper; every step consumes at least one
character, so fuel `l.length + 1` never runs out. -/
def tokenizeExpr (l : List Char) : Option (List Tok) :=
  tokenizeExprAux (l.length + 1) l

/-- Modelled from the spec: recursive-descent grammar of the evaluator, as one
fuel-indexed function so that the kernel can evaluate it.  The `level`
argument selects the grammar production: 0 starts a sum/difference, 1
continues one with accumulator `acc`, 2 starts a product/quotient/remainder,
3 continues one, 4 parses a factor (literal, unary minus, parentheses).
The fuel bounds the call depth; `numexprEval` supplies enough for any token
list. -/
def pRun : Nat → Nat → Int → List Tok → Option (Int × List Tok)
  | 0, _, _, _ => none
  | fuel + 1, 0, _, ts =>
    match pRun fuel 2 0 ts with
    | some (v, r) => pRun fuel 1 v r
    | none => none
  | fuel + 1, 1, acc, ts =>
    match ts with
    | Tok.plus :: r =>
      match pRun fuel 2 0 r with
      | some (v, r2) => pRun fuel 1 (acc + v) r2
      | none => none
    | Tok.minus :: r =>
      match pRun fuel 2 0 r with
      | some (v, r2) => pRun fuel 1 (acc - v) r2
      | none => none
    | _ => some (acc, ts)
  | fuel + 1, 2, _, ts =>
    match pRun fuel 4 0 ts with
    | some (v, r) => pRun fuel 3 v r
    | none => none
  | fuel + 1, 3, acc, ts =>
    match ts with
    | Tok.star :: r =>
      match pRun fuel 4 0 r with
      | some (v, r2) => pRun fuel 3 (acc * v) r2
      | none => none
    | Tok.slash :: r =>
      match pRun fuel 4 0 r with
      | some (v, r2) => pRun fuel 3 (acc / v) r2
      | none => none
    | Tok.percent :: r =>
      match pRun fuel 4 0 r with
      | some (v, r2) => pRun fuel 3 (acc % v) r2
      | none => none
    | _ => some (acc, ts)
  | fuel + 1, 4, _, ts =>
    match ts with
    | Tok.num n :: r => some (n, r)
    | Tok.minus :: r =>
      match pRun fuel 4 0 r with
      | some (v, r2) => some (-v, r2)
      | none => none
    | Tok.lparen :: r =>
      match pRun fuel 0 0 r with
      | some (v, Tok.rparen :: r2) => some (v, r2)
      | _ => none
    | _ => none
  | _ + 1, _ + 5, _, _ => none

/-- Modelled from the spec: `evaluate(expression: string) -> number`, fallible
on malformed input (spec section 6).  Stands for `numexpr.evaluate(...).item()`
followed by `str(...)` on the caller's side; returns the exception message on
failure. -/
def numexprEval (e : String) : Except String Int :=
  match tokenizeExpr e.data with
  | none => Except.error "invalid characters in expression"
  | some ts =>
    match pRun (5 * (ts.length + 1)) 0 0 ts with
    | some (v, []) => Except.ok v
    | _ => Except.error "could not evaluate expression"

/-! ### The workflow state and the six nodes (nodes.py) -/

/-- One entry of `chat_history`: the dicts appended by `memory_node`
(keys `type`, `content`, and - on user entries only - `query_type`). -/
structure ChatMessage where
  mtype : String
  content : String
  qtype : Option String
deriving Repr, DecidableEq

/-- `GraphState` (nodes.py lines 20-31).  Every key is present from the start
in any state built by `ChatbotDAG.process_query`, so the TypedDict becomes a
record; the `'chat_history' not in state` / `'error' not in state` guards of
`input_node` are no-ops on such states and are omitted. -/
structure GraphState where
  user_query : String
  query_type : String
  response : String
  calculation_result : String
  error : String
  chat_history : List ChatMessage
  session_id : String
deriving Repr, DecidableEq

/-- `WorkflowNodes.input_node` (nodes.py lines 47-91): an empty query is
rejected by the falsy `not state.get('user_query')` guard, an invalid query
records the validator error, otherwise the query is replaced by its sanitized
form. -/
def input_node (s : GraphState) : GraphState :=
  if s.user_query = "" then { s with error := "No user query provided" }
  else if (validateQuery s.user_query).1 = false then
    { s with error := (validateQuery s.user_query).2 }
  else { s with user_query := sanitizeQuery s.user_query }

/-- `WorkflowNodes.decision_node` (nodes.py lines 93-126). -/
def decision_node (s : GraphState) : GraphState :=
  if isCalculationQuery s.user_query then { s with query_type := "calculation" }
  else { s with query_type := "text" }

/-- `WorkflowNodes.llm_node` (nodes.py lines 128-170), with the external
`self.llm.invoke` call abstracted as `llm : String -> Except String String`.
The prompt is the text template of `LangChainFactory.create_text_prompt`
instantiated with the rendered history and the query. -/
def formatChatHistory (history : List ChatMessage) : String :=
  if history = [] then "No previous conversation."
  else
    String.intercalate "\n"
      ((history.drop (history.length - 10)).map
        (fun m => (if m.mtype = "user" then "User: " else "Assistant: ") ++ m.content))

/-- The `PromptTemplate` of `LangChainFactory.create_text_prompt`
(langchain_utils.py lines 98-120), instantiated with `chat_history` and
`user_query`. -/
def textPromptRender (chatHistory userQuery : String) : String :=
  "You are a helpful and friendly AI assistant. Based on the conversation history and the user's current query, provide a clear, informative, and helpful response.\n\nChat History:\n"
    ++ chatHistory ++ "\n\nUser Query: " ++ userQuery ++ "\n\nAssistant Response:"

def llm_node (llm : String → Except String String) (s : GraphState) : GraphState :=
  match llm (textPromptRender (formatChatHistory s.chat_history) s.user_query) with
  | Except.ok r => { s with response := r }
  | Except.error e =>
    { s with
      error := "LLM error: " ++ e
      response := "I apologize, but I encountered an error processing your request. Please try again." }

/-- `WorkflowNodes.tool_node` (nodes.py lines 172-213); `expression` is the
extracted expression, inlined at its two uses. -/
def tool_node (s : GraphState) : GraphState :=
  match numexprEval (extractMathExpression s.user_query) with
  | Except.ok v =>
    { s with
      calculation_result := toString v
      response := "The result of " ++ extractMathExpression s.user_query ++ " is " ++ toString v }
  | Except.error e =>
    { s with
      error := "Calculation error: " ++ e
      response := "I couldn't perform that calculation. Please provide a valid mathematical expression." }

/-- `WorkflowNodes.memory_node` (nodes.py lines 215-254): append the user entry
and the assistant entry, then keep only the last 20 entries when the list grows
beyond 20.  (`state.get('query_type', 'text')` reads the always-present
`query_type` key.) -/
def memory_node (s : GraphState) : GraphState :=
  let h := s.chat_history ++
    [⟨"user", s.user_query, some s.query_type⟩, ⟨"assistant", s.response, none⟩]
  { s with chat_history := if h.length > 20 then h.drop (h.length - 20) else h }

/-- `WorkflowNodes.output_node` (nodes.py lines 256-283): substitute the fixed
fallback when `response` is still falsy (empty). -/
def output_node (s : GraphState) : GraphState :=
  if s.response = "" then { s with response := "I'm sorry, I couldn't generate a response." }
  else s

/-! ### The DAG (chatbot_graph.py) -/

/-- The conditional edge after `decision_node` (`ChatbotDAG._route_query` plus
the mapping in `_build_dag`): `query_type = "calculation"` goes to `tool_node`,
`query_type = "text"` to `llm_node`.  `decision_node` only ever produces these
two values. -/
def branch_node (llm : String → Except String String) (s : GraphState) : GraphState :=
  if s.query_type = "calculation" then tool_node s else llm_node llm s

/-- One full traversal of the compiled graph (`_build_dag` edges, lines 64-89):
input -> decision -> (llm | tool) -> memory -> output.  There is no conditional
edge out of `input_node`: a validation failure does NOT short-circuit the
pipeline. -/
def runGraph (llm : String → Except String String) (s : GraphState) : GraphState :=
  output_node (memory_node (branch_node llm (decision_node (input_node s))))

/-- The dict returned by `ChatbotDAG.process_query`. -/
structure QueryResult where
  success : Bool
  response : String
  query_type : String
  chat_history : List ChatMessage
  calculation_result : String
  error : String
deriving Repr, DecidableEq

/-- `ChatbotDAG.process_query` (chatbot_graph.py lines 116-190): build the
initial state, run the graph, package the final state.  The `except` branch
(`success = False`) fires only on an orchestration fault inside LangGraph
itself, which has no counterpart in this embedding: `runGraph` is total. -/
def processQuery (llm : String → Except String String)
    (user_query session_id : String) (session_history : List ChatMessage) : QueryResult :=
  let initial : GraphState :=
    { user_query := user_query
      session_id := session_id
      query_type := ""
      response := ""
      calculation_result := ""
      error := ""
      chat_history := session_history }
  let final := runGraph llm initial
  { success := true
    response := final.response
    query_type := final.query_type
    chat_history := final.chat_history
    calculation_result := final.calculation_result
    error := final.error }

/-! ### The session cache (cache_service.py)

The class-level dict `CacheService._session_cache` becomes an explicit
association list threaded through the operations (Python dicts keep one entry
per key; updates replace the value in place, deletions remove the key).
`datetime.now()` becomes the explicit `now` argument, in minutes, so
`timedelta(minutes=CACHE_EXPIRATION_MINUTES)` is the integer 60. -/

/-- One value of the cache dict: `{'history': ..., 'timestamp': ...}`. -/
structure CacheEntry where
  history : List ChatMessage
  timestamp : Int
deriving Repr, DecidableEq

def Cache := List (String × CacheEntry)

/-- `CacheService.CACHE_EXPIRATION_MINUTES`. -/
def CACHE_EXPIRATION_MINUTES : Int := 60

/-- `CacheService._is_expired` (lines 142-154): strictly older than the window. -/
def isExpired (timestamp now : Int) : Bool :=
  now - timestamp > CACHE_EXPIRATION_MINUTES

/-- Dict lookup: first binding of the key (a Python dict has at most one). -/
def cacheFind (sid : String) : Cache → Option CacheEntry
  | [] => none
  | (k, v) :: rest => if k = sid then some v else cacheFind sid rest

/-- Dict assignment `cache[sid] = v`: replace in place, else append. -/
def cacheUpdate (sid : String) (v : CacheEntry) : Cache → Cache
  | [] => [(sid, v)]
  | (k, w) :: rest =>
    if k = sid then (sid, v) :: rest else (k, w) :: cacheUpdate sid v rest

/-- Dict deletion `del cache[sid]`. -/
def cacheRemove (sid : String) (c : Cache) : Cache :=
  c.filter (fun e => decide (e.1 ≠ sid))

/-- `CacheService.clear_session` (lines 68-82): returns whether the key was
present (expired or not) and the cache with the key removed. -/
def clearSession (c : Cache) (sid : String) : Bool × Cache :=
  if (cacheFind sid c).isSome then (true, cacheRemove sid c) else (false, c)

/-- `CacheService.get_session_history` (lines 24-49): miss on an absent key;
on an expired key, evict via `clear_session` and miss; otherwise return the
stored history.  The returned pair threads the possibly-mutated cache. -/
def getSessionHistory (c : Cache) (sid : String) (now : Int) :
    List ChatMessage × Cache :=
  match cacheFind sid c with
  | none => ([], c)
  | some d =>
    if isExpired d.timestamp now then ([], (clearSession c sid).2)
    else (d.history, c)

/-- `CacheService.save_session_history` (lines 51-66). -/
def saveSessionHistory (c : Cache) (sid : String) (history : List ChatMessage)
    (now : Int) : Cache :=
  cacheUpdate sid ⟨history, now⟩ c

/-- `CacheService.clear_all_sessions` (lines 84-94). -/
def clearAllSessions (c : Cache) : Nat × Cache :=
  (c.length, [])

/-- `CacheService.cleanup_expired_sessions` (lines 96-113): evict every expired
entry, return how many were evicted. -/
def cleanupExpiredSessions (c : Cache) (now : Int) : Nat × Cache :=
  ((c.filter (fun e => isExpired e.2.timestamp now)).length,
   c.filter (fun e => !isExpired e.2.timestamp now))

/-- `CacheService.get_session_count` (lines 115-123): raw dict size. -/
def getSessionCount (c : Cache) : Nat :=
  c.length

/-- `CacheService.session_exists` (lines 125-140): present and not expired;
no eviction side effect. -/
def sessionExists (c : Cache) (sid : String) (now : Int) : Bool :=
  match cacheFind sid c with
  | none => false
  | some d => !isExpired d.timestamp now

/-- Substring search over a string (used to state "response contains ..."). -/
def strContains (s pat : String) : Bool :=
  existsAt (fun t => pat.data.isPrefixOf t) s.data

/-- A concrete always-succeeding generation call, used to instantiate the
`llm` parameter in concrete executions. -/
def llmOk : String → Except String String :=
  fun _ => Except.ok "Hello!"

/-! ### Generic lemmas about the embedding -/

theorem str_append_ne_empty (a b : String) (h : a.length ≠ 0) : a ++ b ≠ "" := by
  intro hc
  have hl : (a ++ b).length = (0 : Nat) := by rw [hc]; rfl
  rw [String.length_append] at hl
  omega

theorem output_response_ne (s : GraphState) : (output_node s).response ≠ "" := by
  unfold output_node
  split
  · intro hc
    exact absurd (show ("I'm sorry, I couldn't generate a response." : String) = "" from hc)
      (by decide)
  · next h => simpa using h

theorem output_error_eq (s : GraphState) : (output_node s).error = s.error := by
  unfold output_node; split <;> rfl

theorem output_hist_eq (s : GraphState) : (output_node s).chat_history = s.chat_history := by
  unfold output_node; split <;> rfl

theorem decision_error_eq (s : GraphState) : (decision_node s).error = s.error := by
  unfold decision_node; split <;> rfl

theorem decision_hist_eq (s : GraphState) : (decision_node s).chat_history = s.chat_history := by
  unfold decision_node; split <;> rfl

theorem memory_error_eq (s : GraphState) : (memory_node s).error = s.error := rfl

theorem llm_error_ne (llm : String → Except String String) (s : GraphState)
    (h : s.error ≠ "") : (llm_node llm s).error ≠ "" := by
  unfold llm_node
  cases hc : llm (textPromptRender (formatChatHistory s.chat_history) s.user_query) with
  | ok r => exact h
  | error e => exact str_append_ne_empty "LLM error: " e (by decide)

theorem tool_error_ne (s : GraphState) (h : s.error ≠ "") : (tool_node s).error ≠ "" := by
  unfold tool_node
  cases hc : numexprEval (extractMathExpression s.user_query) with
  | ok v => exact h
  | error e => exact str_append_ne_empty "Calculation error: " e (by decide)

theorem branch_error_ne (llm : String → Except String String) (s : GraphState)
    (h : s.error ≠ "") : (branch_node llm s).error ≠ "" := by
  unfold branch_node
  split
  · exact tool_error_ne s h
  · exact llm_error_ne llm s h

theorem llm_hist_eq (llm : String → Except String String) (s : GraphState) :
    (llm_node llm s).chat_history = s.chat_history := by
  unfold llm_node
  cases hc : llm (textPromptRender (formatChatHistory s.chat_history) s.user_query) <;> rfl

theorem tool_hist_eq (s : GraphState) : (tool_node s).chat_history = s.chat_history := by
  unfold tool_node
  cases hc : numexprEval (extractMathExpression s.user_query) <;> rfl

theorem branch_hist_eq (llm : String → Except String String) (s : GraphState) :
    (branch_node llm s).chat_history = s.chat_history := by
  unfold branch_node
  split
  · exact tool_hist_eq s
  · exact llm_hist_eq llm s

theorem input_hist_eq (s : GraphState) : (input_node s).chat_history = s.chat_history := by
  unfold input_node
  split
  · rfl
  · split <;> rfl

theorem memory_hist_len (s : GraphState) :
    (memory_node s).chat_history.length = min (s.chat_history.length + 2) 20 := by
  simp only [memory_node, List.length_append, List.length_cons, List.length_nil]
  split <;> (simp_all [List.length_drop]; try omega)

theorem validate_msg_ne (q : String) (h : (validateQuery q).1 = false) :
    (validateQuery q).2 ≠ "" := by
  unfold validateQuery at h ⊢
  split_ifs at h ⊢
  · decide
  · decide
  · decide

theorem input_error_ne (s : GraphState)
    (h : s.user_query = "" ∨ (validateQuery s.user_query).1 = false) :
    (input_node s).error ≠ "" := by
  unfold input_node
  rcases h with h | h
  · rw [if_pos h]
    intro hc
    exact absurd (show ("No user query provided" : String) = "" from hc) (by decide)
  · by_cases hq : s.user_query = ""
    · rw [if_pos hq]
      intro hc
      exact absurd (show ("No user query provided" : String) = "" from hc) (by decide)
    · rw [if_neg hq, if_pos (by simp [h])]
      exact validate_msg_ne _ h

theorem tool_response_ne (s : GraphState) : (tool_node s).response ≠ "" := by
  unfold tool_node
  cases hc : numexprEval (extractMathExpression s.user_query) with
  | ok v =>
    apply str_append_ne_empty
    rw [String.length_append, String.length_append]
    have h14 : ("The result of " : String).length ≠ 0 := by decide
    omega
  | error e =>
    intro hcon
    exact absurd
      (show ("I couldn't perform that calculation. Please provide a valid mathematical expression." : String) = "" from hcon)
      (by decide)

theorem llm_qtype_eq (llm : String → Except String String) (s : GraphState) :
    (llm_node llm s).query_type = s.query_type := by
  unfold llm_node
  cases hc : llm (textPromptRender (formatChatHistory s.chat_history) s.user_query) <;> rfl

theorem tool_qtype_eq (s : GraphState) : (tool_node s).query_type = s.query_type := by
  unfold tool_node
  cases hc : numexprEval (extractMathExpression s.user_query) <;> rfl

theorem branch_qtype_eq (llm : String → Except String String) (s : GraphState) :
    (branch_node llm s).query_type = s.query_type := by
  unfold branch_node
  split
  · exact tool_qtype_eq s
  · exact llm_qtype_eq llm s

theorem branch_eq_tool (llm : String → Except String String) (s : GraphState)
    (h : s.query_type = "calculation") : branch_node llm s = tool_node s := by
  unfold branch_node
  rw [if_pos h]

theorem branch_eq_llm (llm : String → Except String String) (s : GraphState)
    (h : ¬s.query_type = "calculation") : branch_node llm s = llm_node llm s := by
  unfold branch_node
  rw [if_neg h]

/-- The generation stage always writes its own output into `response`: the
text returned by the provider on success, or the fixed apology on provider
failure. -/
theorem llm_response_spec (llm : String → Except String String) (s : GraphState) :
    (∃ r, llm (textPromptRender (formatChatHistory s.chat_history) s.user_query) =
        Except.ok r ∧ (llm_node llm s).response = r) ∨
    (llm_node llm s).response =
      "I apologize, but I encountered an error processing your request. Please try again." := by
  unfold llm_node
  cases hc : llm (textPromptRender (formatChatHistory s.chat_history) s.user_query) with
  | ok r => exact Or.inl ⟨r, rfl, rfl⟩
  | error e => exact Or.inr rfl

/-! ### Claim theorems -/

/-- C3: for every query (in particular every valid non-empty query of at most
5000 characters) `process_query` returns `success = true` and a non-empty
`response`; on every execution path the response is non-empty because the exit
stage substitutes the fixed fallback string whenever `response` is still
empty. -/
theorem c3_success_and_nonempty_response :
    (∀ (llm : String → Except String String) (q sid : String) (hist : List ChatMessage),
      (processQuery llm q sid hist).success = true ∧
      (processQuery llm q sid hist).response ≠ "") ∧
    (∀ s : GraphState, s.response = "" →
      (output_node s).response = "I'm sorry, I couldn't generate a response.") := by
  constructor
  · intro llm q sid hist
    exact ⟨rfl, output_response_ne _⟩
  · intro s hs
    unfold output_node
    rw [if_pos hs]

/-- Witness for C3: the exit-stage substitution clause applied to a concrete
state with an empty response. -/
theorem c3_success_and_nonempty_response_witness :
    (⟨"hi", "text", "", "", "", [], "s"⟩ : GraphState).response = "" ∧
    (output_node ⟨"hi", "text", "", "", "", [], "s"⟩).response =
      "I'm sorry, I couldn't generate a response." :=
  ⟨rfl, c3_success_and_nonempty_response.2 _ rfl⟩

/-- C4: classification is a total deterministic function assigning every state
either `text` or `calculation`; the queries `2+2`, `calculate 10 * 4` and
`what is 9 / 3` classify as calculation, `hello there` and `tell me a joke`
as text. -/
theorem c4_classification_total :
    (∀ s : GraphState,
      (decision_node s).query_type = "text" ∨
      (decision_node s).query_type = "calculation") ∧
    isCalculationQuery "2+2" = true ∧
    isCalculationQuery "calculate 10 * 4" = true ∧
    isCalculationQuery "what is 9 / 3" = true ∧
    isCalculationQuery "hello there" = false ∧
    isCalculationQuery "tell me a joke" = false := by
  refine ⟨?_, by decide, by decide, by decide, by decide, by decide⟩
  intro s
  unfold decision_node
  split
  · right; rfl
  · left; rfl

/-- C6: on `calculate banana` (a calculation-classified query with a malformed
expression) `process_query` returns `success = true`, a non-empty `error`, the
fixed apology response, and an empty `calculation_result`, for every generation
backend. -/
theorem c6_calculation_failure_recoverable :
    ∀ llm : String → Except String String,
      (processQuery llm "calculate banana" "session-1" []).success = true ∧
      (processQuery llm "calculate banana" "session-1" []).error ≠ "" ∧
      (processQuery llm "calculate banana" "session-1" []).response =
        "I couldn't perform that calculation. Please provide a valid mathematical expression." ∧
      (processQuery llm "calculate banana" "session-1" []).calculation_result = "" := by
  intro llm
  refine ⟨rfl, ?_, rfl, rfl⟩
  intro hc
  exact absurd
    (show ("Calculation error: invalid characters in expression" : String) = "" from hc)
    (by decide)

/-- C5: `what is 5 + 3?` reduces to the expression `5 + 3`, which evaluates
to 8; the run produces `calculation_result = "8"` and a response containing
`8`; and whenever filler stripping leaves the empty string, the extraction
falls back to the full query. -/
theorem c5_calculation_correctness :
    extractMathExpression "what is 5 + 3?" = "5 + 3" ∧
    numexprEval "5 + 3" = Except.ok 8 ∧
    (∀ llm : String → Except String String,
      (processQuery llm "what is 5 + 3?" "session-1" []).calculation_result = "8" ∧
      strContains (processQuery llm "what is 5 + 3?" "session-1" []).response "8" = true) ∧
    (∀ q : String, pyStrip (String.mk (stripFiller q.data)) = "" →
      extractMathExpression q = q) := by
  refine ⟨by decide, by rfl, ?_, ?_⟩
  · intro llm
    exact ⟨rfl, rfl⟩
  · intro q hq
    unfold extractMathExpression
    rw [if_pos hq]

/-- Witness for C5: the empty-after-stripping fallback at the concrete query
`the`. -/
theorem c5_calculation_correctness_witness :
    pyStrip (String.mk (stripFiller "the".data)) = "" ∧ extractMathExpression "the" = "the" :=
  ⟨by decide, c5_calculation_correctness.2.2.2 "the" (by decide)⟩

/-! ### History bound machinery (for the recording stage, C7) -/

/-- The last 20 entries of a list (all of it when it is shorter).  This is the
normal form of the recording stage's conditional truncation. -/
def tail20 (l : List ChatMessage) : List ChatMessage :=
  l.drop (l.length - 20)

/-- The two entries `memory_node` appends for one exchange
`(query, query_type, response)`. -/
def pairEntries (x : String × String × String) : List ChatMessage :=
  [⟨"user", x.1, some x.2.1⟩, ⟨"assistant", x.2.2, none⟩]

/-- All entries of a list of exchanges, in chronological order. -/
def flatPairs : List (String × String × String) → List ChatMessage
  | [] => []
  | x :: xs => pairEntries x ++ flatPairs xs

/-- The recording stage applied to one exchange: `memory_node` on a state
carrying that exchange's query, type and response. -/
def recordExchange (h : List ChatMessage) (x : String × String × String) :
    List ChatMessage :=
  (memory_node ⟨x.1, x.2.1, x.2.2, "", "", h, ""⟩).chat_history

/-- The history after running the recording stage over a whole session of
exchanges, starting from an empty history. -/
def sessionHist (xs : List (String × String × String)) : List ChatMessage :=
  xs.foldl recordExchange []

theorem isSuffix_append_right {α : Type} {a b : List α} (r : List α)
    (h : a.IsSuffix b) : (a ++ r).IsSuffix (b ++ r) := by
  obtain ⟨t, ht⟩ := h
  exact ⟨t, by rw [← ht, List.append_assoc]⟩

theorem suffix_eq_of_length {α : Type} {s1 s2 l : List α}
    (h1 : s1.IsSuffix l) (h2 : s2.IsSuffix l) (hl : s1.length = s2.length) :
    s1 = s2 := by
  obtain ⟨t1, ht1⟩ := h1
  obtain ⟨t2, ht2⟩ := h2
  have hT : t1 ++ s1 = t2 ++ s2 := by rw [ht1, ht2]
  have hlen : t1.length = t2.length := by
    have hc := congrArg List.length hT
    simp only [List.length_append] at hc
    omega
  exact (List.append_inj hT hlen).2

theorem tail20_suffix (l : List ChatMessage) : (tail20 l).IsSuffix l :=
  List.drop_suffix _ l

theorem tail20_length (l : List ChatMessage) : (tail20 l).length = min l.length 20 := by
  simp only [tail20, List.length_drop]
  omega

theorem tail20_idem_append (l r : List ChatMessage) :
    tail20 (tail20 l ++ r) = tail20 (l ++ r) := by
  apply suffix_eq_of_length
  · exact (tail20_suffix _).trans (isSuffix_append_right r (tail20_suffix l))
  · exact tail20_suffix _
  · simp only [tail20_length, List.length_append]
    omega

theorem memory_hist_tail20 (s : GraphState) :
    (memory_node s).chat_history =
      tail20 (s.chat_history ++ [⟨"user", s.user_query, some s.query_type⟩,
        ⟨"assistant", s.response, none⟩]) := by
  simp only [memory_node, tail20]
  split
  · rfl
  · next h => rw [Nat.sub_eq_zero_of_le (by omega), List.drop_zero]

theorem recordExchange_eq (h : List ChatMessage) (x : String × String × String) :
    recordExchange h x = tail20 (h ++ pairEntries x) := by
  rw [recordExchange, memory_hist_tail20]
  rfl

theorem foldl_recordExchange (xs : List (String × String × String)) :
    ∀ l : List ChatMessage,
      xs.foldl recordExchange (tail20 l) = tail20 (l ++ flatPairs xs) := by
  induction xs with
  | nil => intro l; simp [flatPairs]
  | cons x xs ih =>
    intro l
    rw [List.foldl_cons, recordExchange_eq, tail20_idem_append,
      ih (l ++ pairEntries x)]
    simp [flatPairs, List.append_assoc]

theorem sessionHist_eq (xs : List (String × String × String)) :
    sessionHist xs = tail20 (flatPairs xs) := by
  have h := foldl_recordExchange xs []
  simpa [sessionHist, tail20] using h

theorem flatPairs_append (a b : List (String × String × String)) :
    flatPairs (a ++ b) = flatPairs a ++ flatPairs b := by
  induction a with
  | nil => simp [flatPairs]
  | cons x xs ih => simp [flatPairs, ih, List.append_assoc]

theorem flatPairs_length (xs : List (String × String × String)) :
    (flatPairs xs).length = 2 * xs.length := by
  induction xs with
  | nil => rfl
  | cons x xs ih =>
    simp only [flatPairs, pairEntries, List.length_append, List.length_cons,
      List.length_nil, ih]
    omega

theorem tail20_flat_split (a b : List (String × String × String))
    (hb : b.length = 10) : tail20 (flatPairs (a ++ b)) = flatPairs b := by
  rw [flatPairs_append]
  unfold tail20
  have hidx : (flatPairs a ++ flatPairs b).length - 20 = (flatPairs a).length := by
    rw [List.length_append, flatPairs_length, flatPairs_length, hb]
    omega
  rw [hidx, List.drop_left]

/-- C7: the history is bounded - after the recording stage its length never
exceeds 20 - and after at least 11 exchanges in one session it has exactly 20
entries, namely the user/assistant pairs of the 10 most recent exchanges in
chronological order. -/
theorem c7_history_bound :
    (∀ s : GraphState, (memory_node s).chat_history.length ≤ 20) ∧
    (∀ xs : List (String × String × String), 11 ≤ xs.length →
      sessionHist xs = flatPairs (xs.drop (xs.length - 10)) ∧
      (sessionHist xs).length = 20) := by
  constructor
  · intro s
    rw [memory_hist_len]
    omega
  · intro xs hxs
    have hsplit : xs.take (xs.length - 10) ++ xs.drop (xs.length - 10) = xs :=
      List.take_append_drop _ xs
    have hdrop : (xs.drop (xs.length - 10)).length = 10 := by
      rw [List.length_drop]; omega
    have hmain : sessionHist xs = flatPairs (xs.drop (xs.length - 10)) := by
      rw [sessionHist_eq]
      have h1 : tail20 (flatPairs xs) =
          tail20 (flatPairs (xs.take (xs.length - 10) ++ xs.drop (xs.length - 10))) := by
        rw [hsplit]
      rw [h1, tail20_flat_split _ _ hdrop]
    refine ⟨hmain, ?_⟩
    rw [hmain, flatPairs_length, hdrop]

/-- Eleven concrete exchanges, for the C7 witness. -/
def elevenExchanges : List (String × String × String) :=
  [("q1", "text", "r1"), ("q2", "text", "r2"), ("q3", "text", "r3"),
   ("q4", "text", "r4"), ("q5", "text", "r5"), ("q6", "text", "r6"),
   ("q7", "text", "r7"), ("q8", "text", "r8"), ("q9", "text", "r9"),
   ("q10", "calculation", "r10"), ("q11", "text", "r11")]

/-- Witness for C7: after the 11 concrete exchanges the history has exactly
20 entries. -/
theorem c7_history_bound_witness :
    11 ≤ elevenExchanges.length ∧ (sessionHist elevenExchanges).length = 20 :=
  ⟨by decide, (c7_history_bound.2 elevenExchanges (by decide)).2⟩

/-- C2, counterexample: the empty query fails entry validation, yet the run
still appends the user and assistant entries to history - the pipeline does
not short-circuit before the recording stage, contradicting the claim that
nothing is appended. -/
theorem c2_counterexample_validation_still_records :
    (validateQuery "").1 = false ∧
    (processQuery llmOk "" "session-1" []).error = "No user query provided" ∧
    (processQuery llmOk "" "session-1" []).chat_history =
      [⟨"user", "", some "text"⟩, ⟨"assistant", "Hello!", none⟩] :=
  ⟨by decide, rfl, rfl⟩

theorem memory_hist_suffix (s : GraphState) :
    ∃ pre, (memory_node s).chat_history =
      pre ++ [⟨"user", s.user_query, some s.query_type⟩,
              ⟨"assistant", s.response, none⟩] := by
  simp only [memory_node]
  split
  · exact ⟨_, List.drop_append_of_le_length (by simp [List.length_append]; try omega)⟩
  · exact ⟨s.chat_history, rfl⟩

/-- C1: if any stage up to and including the generation/calculation stage has
set a non-empty error, every later stage still runs: the final state still
carries a non-empty error, the recording stage has appended exactly the user
entry and the assistant entry (truncating to 20), and the exit stage has been
applied (the conclusion is about the full `runGraph` composition). -/
theorem c1_error_does_not_stop_pipeline
    (llm : String → Except String String) (s0 : GraphState)
    (herr : (input_node s0).error ≠ "" ∨
      (branch_node llm (decision_node (input_node s0))).error ≠ "") :
    (runGraph llm s0).error ≠ "" ∧
    (runGraph llm s0).chat_history.length =
      min ((branch_node llm (decision_node (input_node s0))).chat_history.length + 2) 20 ∧
    ∃ pre, (runGraph llm s0).chat_history =
      pre ++ [⟨"user", (branch_node llm (decision_node (input_node s0))).user_query,
               some (branch_node llm (decision_node (input_node s0))).query_type⟩,
              ⟨"assistant", (branch_node llm (decision_node (input_node s0))).response,
               none⟩] := by
  have h3 : (branch_node llm (decision_node (input_node s0))).error ≠ "" := by
    rcases herr with h | h
    · exact branch_error_ne _ _ (by rw [decision_error_eq]; exact h)
    · exact h
  refine ⟨?_, ?_, ?_⟩
  · unfold runGraph
    rw [output_error_eq, memory_error_eq]
    exact h3
  · unfold runGraph
    rw [output_hist_eq, memory_hist_len]
  · unfold runGraph
    rw [output_hist_eq]
    exact memory_hist_suffix _

/-- Witness for C1: an entry-validation failure (empty query) with a concrete
generation backend. -/
theorem c1_error_does_not_stop_pipeline_witness :
    ((input_node ⟨"", "", "", "", "", [], "s"⟩).error ≠ "" ∨
      (branch_node llmOk (decision_node (input_node ⟨"", "", "", "", "", [], "s"⟩))).error ≠ "") ∧
    ((runGraph llmOk ⟨"", "", "", "", "", [], "s"⟩).error ≠ "" ∧
     (runGraph llmOk ⟨"", "", "", "", "", [], "s"⟩).chat_history.length =
       min ((branch_node llmOk (decision_node
         (input_node ⟨"", "", "", "", "", [], "s"⟩))).chat_history.length + 2) 20 ∧
     ∃ pre, (runGraph llmOk ⟨"", "", "", "", "", [], "s"⟩).chat_history =
       pre ++ [⟨"user",
                (branch_node llmOk (decision_node
                  (input_node ⟨"", "", "", "", "", [], "s"⟩))).user_query,
                some (branch_node llmOk (decision_node
                  (input_node ⟨"", "", "", "", "", [], "s"⟩))).query_type⟩,
               ⟨"assistant",
                (branch_node llmOk (decision_node
                  (input_node ⟨"", "", "", "", "", [], "s"⟩))).response, none⟩]) :=
  ⟨Or.inl (by decide),
   c1_error_does_not_stop_pipeline llmOk ⟨"", "", "", "", "", [], "s"⟩ (Or.inl (by decide))⟩

/-! ### Cache lemmas -/

theorem cacheFind_update_self (sid : String) (v : CacheEntry)
    (c : List (String × CacheEntry)) :
    cacheFind sid (cacheUpdate sid v c) = some v := by
  induction c with
  | nil => simp [cacheUpdate, cacheFind]
  | cons e rest ih =>
    obtain ⟨k, w⟩ := e
    by_cases hk : k = sid
    · simp [cacheUpdate, cacheFind, hk]
    · simp [cacheUpdate, cacheFind, hk, ih]

theorem cacheFind_remove_self (sid : String) (c : List (String × CacheEntry)) :
    cacheFind sid (cacheRemove sid c) = none := by
  induction c with
  | nil => rfl
  | cons e rest ih =>
    obtain ⟨k, w⟩ := e
    by_cases hk : k = sid
    · simpa [cacheRemove, List.filter_cons, hk] using ih
    · simpa [cacheRemove, List.filter_cons, hk, cacheFind] using ih

theorem cacheFind_filter_keep (p : String × CacheEntry → Bool) (sid : String)
    (v : CacheEntry) (c : List (String × CacheEntry))
    (hf : cacheFind sid c = some v) (hp : p (sid, v) = true) :
    cacheFind sid (c.filter p) = some v := by
  induction c with
  | nil => simp [cacheFind] at hf
  | cons e rest ih =>
    obtain ⟨k, w⟩ := e
    by_cases hk : k = sid
    · subst hk
      have hw : w = v := by simpa [cacheFind] using hf
      subst hw
      simp [List.filter_cons, hp, cacheFind]
    · have hfr : cacheFind sid rest = some v := by simpa [cacheFind, hk] using hf
      by_cases hpk : p (k, w) = true
      · simpa [List.filter_cons, hpk, cacheFind, hk] using ih hfr
      · simpa [List.filter_cons, hpk] using ih hfr

theorem cacheFind_none_of_not_mem (sid : String) (c : List (String × CacheEntry))
    (h : sid ∉ c.map Prod.fst) : cacheFind sid c = none := by
  induction c with
  | nil => rfl
  | cons e rest ih =>
    obtain ⟨k, w⟩ := e
    simp only [List.map_cons, List.mem_cons] at h
    push_neg at h
    have hk : ¬k = sid := fun hc => h.1 hc.symm
    simp [cacheFind, hk, ih h.2]

theorem filter_keys_subset (p : String × CacheEntry → Bool)
    (c : List (String × CacheEntry)) :
    ((c.filter p).map Prod.fst) ⊆ c.map Prod.fst := by
  intro a ha
  simp only [List.mem_map] at ha ⊢
  obtain ⟨e, he, hpa⟩ := ha
  exact ⟨e, List.mem_of_mem_filter he, hpa⟩

theorem cacheFind_filter_drop (p : String × CacheEntry → Bool) (sid : String)
    (v : CacheEntry) (c : List (String × CacheEntry))
    (hf : cacheFind sid c = some v) (hp : p (sid, v) = false)
    (hnd : (c.map Prod.fst).Nodup) :
    cacheFind sid (c.filter p) = none := by
  induction c with
  | nil => simp [cacheFind] at hf
  | cons e rest ih =>
    obtain ⟨k, w⟩ := e
    simp only [List.map_cons, List.nodup_cons] at hnd
    by_cases hk : k = sid
    · subst hk
      have hw : w = v := by simpa [cacheFind] using hf
      subst hw
      rw [List.filter_cons, if_neg (by simp [hp])]
      exact cacheFind_none_of_not_mem _ _
        (fun hmem => hnd.1 (filter_keys_subset p rest hmem))
    · have hfr : cacheFind sid rest = some v := by simpa [cacheFind, hk] using hf
      by_cases hpk : p (k, w) = true
      · simpa [List.filter_cons, hpk, cacheFind, hk] using ih hfr hnd.2
      · simpa [List.filter_cons, hpk] using ih hfr hnd.2

theorem cacheUpdate_keys_mem (sid : String) (v : CacheEntry)
    (c : List (String × CacheEntry)) (a : String)
    (h : a ∈ (cacheUpdate sid v c).map Prod.fst) : a = sid ∨ a ∈ c.map Prod.fst := by
  induction c with
  | nil => simpa [cacheUpdate] using h
  | cons e rest ih =>
    obtain ⟨k, w⟩ := e
    by_cases hk : k = sid
    · subst hk
      rcases (by simpa [cacheUpdate] using h : a = k ∨ a ∈ rest.map Prod.fst) with h2 | h2
      · exact Or.inl h2
      · exact Or.inr (by simp [h2])
    · rcases (by simpa [cacheUpdate, hk] using h :
        a = k ∨ a ∈ (cacheUpdate sid v rest).map Prod.fst) with h2 | h2
      · exact Or.inr (by simp [h2])
      · rcases ih h2 with h3 | h3
        · exact Or.inl h3
        · exact Or.inr (by simp [h3])

theorem cacheUpdate_nodup (sid : String) (v : CacheEntry)
    (c : List (String × CacheEntry)) (hnd : (c.map Prod.fst).Nodup) :
    ((cacheUpdate sid v c).map Prod.fst).Nodup := by
  induction c with
  | nil => simp [cacheUpdate]
  | cons e rest ih =>
    obtain ⟨k, w⟩ := e
    simp only [List.map_cons, List.nodup_cons] at hnd
    by_cases hk : k = sid
    · subst hk
      simp only [cacheUpdate, eq_self_iff_true, if_true, List.map_cons, List.nodup_cons]
      exact ⟨hnd.1, hnd.2⟩
    · simp only [cacheUpdate, if_neg hk, List.map_cons, List.nodup_cons]
      refine ⟨?_, ih hnd.2⟩
      intro hmem
      rcases cacheUpdate_keys_mem sid v rest k hmem with h2 | h2
      · exact hk h2
      · exact hnd.1 h2

/-! ### Cache claim theorems -/

/-- C8: an entry written at time `T` is returned by `get` at `T + 59` minutes;
at `T + 61` minutes `get` is a miss that evicts the entry as a side effect;
and both behaviors also hold when the background sweep has run at the read
time.  A miss returns the empty history rather than raising. -/
theorem c8_cache_ttl (c : List (String × CacheEntry)) (sid : String)
    (h : List ChatMessage) (T : Int) (hnd : (c.map Prod.fst).Nodup) :
    getSessionHistory (saveSessionHistory c sid h T) sid (T + 59) =
      (h, saveSessionHistory c sid h T) ∧
    (getSessionHistory (saveSessionHistory c sid h T) sid (T + 61)).1 = [] ∧
    cacheFind sid (getSessionHistory (saveSessionHistory c sid h T) sid (T + 61)).2 = none ∧
    (getSessionHistory (cleanupExpiredSessions (saveSessionHistory c sid h T) (T + 59)).2
      sid (T + 59)).1 = h ∧
    (getSessionHistory (cleanupExpiredSessions (saveSessionHistory c sid h T) (T + 61)).2
      sid (T + 61)).1 = [] := by
  have hfind : cacheFind sid (saveSessionHistory c sid h T) = some ⟨h, T⟩ :=
    cacheFind_update_self sid ⟨h, T⟩ c
  have hexp59 : isExpired T (T + 59) = false := by
    simp only [isExpired, CACHE_EXPIRATION_MINUTES, decide_eq_false_iff_not]
    omega
  have hexp61 : isExpired T (T + 61) = true := by
    simp only [isExpired, CACHE_EXPIRATION_MINUTES, decide_eq_true_eq]
    omega
  refine ⟨?_, ?_, ?_, ?_, ?_⟩
  · simp [getSessionHistory, hfind, hexp59]
  · simp [getSessionHistory, hfind, hexp61]
  · simp [getSessionHistory, hfind, hexp61, clearSession, cacheFind_remove_self]
  · have hkeep : cacheFind sid ((saveSessionHistory c sid h T).filter
        (fun e => !isExpired e.2.timestamp (T + 59))) = some ⟨h, T⟩ :=
      cacheFind_filter_keep _ _ _ _ hfind (by simp [hexp59])
    simp [cleanupExpiredSessions, getSessionHistory, hkeep, hexp59]
  · have hnone : cacheFind sid ((saveSessionHistory c sid h T).filter
        (fun e => !isExpired e.2.timestamp (T + 61))) = none :=
      cacheFind_filter_drop _ _ _ _ hfind (by simp [hexp61])
        (cacheUpdate_nodup sid ⟨h, T⟩ c hnd)
    simp [cleanupExpiredSessions, getSessionHistory, hnone]

/-- Witness for C8: the TTL behavior on a concrete one-entry cache. -/
theorem c8_cache_ttl_witness :
    getSessionHistory (saveSessionHistory [] "s" [⟨"user", "hi", some "text"⟩] 0) "s" (0 + 59) =
      ([⟨"user", "hi", some "text"⟩],
        saveSessionHistory [] "s" [⟨"user", "hi", some "text"⟩] 0) ∧
    (getSessionHistory (saveSessionHistory [] "s" [⟨"user", "hi", some "text"⟩] 0)
      "s" (0 + 61)).1 = [] :=
  ⟨(c8_cache_ttl [] "s" [⟨"user", "hi", some "text"⟩] 0 (by simp)).1,
   (c8_cache_ttl [] "s" [⟨"user", "hi", some "text"⟩] 0 (by simp)).2.1⟩

/-- C9, counterexample: `clear_session` on a present but expired entry returns
true (the claim says an expired entry yields false): at time 100 the entry
written at time 0 is expired, `session_exists` is false, yet `clear_session`
still returns true. -/
theorem c9_counterexample_expired_invalidate_true :
    sessionExists [("s", (⟨[], 0⟩ : CacheEntry))] "s" 100 = false ∧
    (clearSession [("s", (⟨[], 0⟩ : CacheEntry))] "s").1 = true := by
  constructor
  · decide
  · decide

/-- C9, amended: `invalidate` returns true exactly when the raw entry is
present - live or expired; after it runs, a lookup misses and a subsequent
`get` returns the empty history.  On an absent key it returns false. -/
theorem c9_amended_invalidate_removes_raw_entry
    (c : List (String × CacheEntry)) (sid : String) (now : Int) :
    (clearSession c sid).1 = (cacheFind sid c).isSome ∧
    cacheFind sid (clearSession c sid).2 = none ∧
    (getSessionHistory (clearSession c sid).2 sid now).1 = [] := by
  unfold clearSession
  by_cases hs : (cacheFind sid c).isSome = true
  · rw [if_pos hs]
    refine ⟨hs.symm, cacheFind_remove_self sid c, ?_⟩
    unfold getSessionHistory
    rw [cacheFind_remove_self]
  · rw [if_neg hs]
    have hn : cacheFind sid c = none := by
      cases hc : cacheFind sid c
      · rfl
      · simp [hc] at hs
    refine ⟨by simp [hn], hn, ?_⟩
    unfold getSessionHistory
    rw [hn]

/-- C10: `size` counts raw stored entries: it bounds from above the number of
entries whose session still exists (is unexpired), and on a concrete cache
holding one expired entry, `exists` is false while `size` is still 1 - until a
`get` on that session or a sweep removes it, after which `size` is 0. -/
theorem c10_size_counts_raw_entries :
    (∀ (c : List (String × CacheEntry)) (now : Int),
      (c.filter (fun e => !isExpired e.2.timestamp now)).length ≤ getSessionCount c) ∧
    sessionExists [("s", (⟨[], 0⟩ : CacheEntry))] "s" 100 = false ∧
    getSessionCount [("s", (⟨[], 0⟩ : CacheEntry))] = 1 ∧
    getSessionCount (getSessionHistory [("s", (⟨[], 0⟩ : CacheEntry))] "s" 100).2 = 0 ∧
    getSessionCount (cleanupExpiredSessions [("s", (⟨[], 0⟩ : CacheEntry))] 100).2 = 0 := by
  refine ⟨?_, by decide, by decide, by decide, by decide⟩
  intro c now
  exact List.length_filter_le _ c

/-- C2, amended: a query that fails entry-stage validation is reported to the
caller through a non-empty `error` field, but execution does not short-circuit
before the recording stage: the recording stage appends exactly the user entry
and the assistant entry to history (history grows to `min (len + 2) 20`), the
assistant entry carries the output the branch stage produced, and that stage
did produce output - on the calculation route a non-empty result or apology
string, on the text route the text returned by the provider or the fixed
apology. -/
theorem c2_amended_validation_reported_but_no_short_circuit
    (llm : String → Except String String) (q sid : String) (hist : List ChatMessage)
    (hv : (validateQuery q).1 = false) :
    (processQuery llm q sid hist).error ≠ "" ∧
    (processQuery llm q sid hist).chat_history.length = min (hist.length + 2) 20 ∧
    (∃ pre, (processQuery llm q sid hist).chat_history =
      pre ++ [⟨"user",
               (branch_node llm (decision_node
                 (input_node ⟨q, "", "", "", "", hist, sid⟩))).user_query,
               some (branch_node llm (decision_node
                 (input_node ⟨q, "", "", "", "", hist, sid⟩))).query_type⟩,
              ⟨"assistant",
               (branch_node llm (decision_node
                 (input_node ⟨q, "", "", "", "", hist, sid⟩))).response, none⟩]) ∧
    ((branch_node llm (decision_node
        (input_node ⟨q, "", "", "", "", hist, sid⟩))).query_type = "calculation" →
      (branch_node llm (decision_node
        (input_node ⟨q, "", "", "", "", hist, sid⟩))).response ≠ "") ∧
    ((branch_node llm (decision_node
        (input_node ⟨q, "", "", "", "", hist, sid⟩))).query_type = "text" →
      (∃ r, llm (textPromptRender
          (formatChatHistory (decision_node
            (input_node ⟨q, "", "", "", "", hist, sid⟩)).chat_history)
          (decision_node (input_node ⟨q, "", "", "", "", hist, sid⟩)).user_query) =
            Except.ok r ∧
        (branch_node llm (decision_node
          (input_node ⟨q, "", "", "", "", hist, sid⟩))).response = r) ∨
      (branch_node llm (decision_node
        (input_node ⟨q, "", "", "", "", hist, sid⟩))).response =
        "I apologize, but I encountered an error processing your request. Please try again.") := by
  have h1 : (input_node ⟨q, "", "", "", "", hist, sid⟩).error ≠ "" :=
    input_error_ne _ (Or.inr hv)
  have h2 : (decision_node (input_node ⟨q, "", "", "", "", hist, sid⟩)).error ≠ "" := by
    rw [decision_error_eq]; exact h1
  have h3 :
      (branch_node llm (decision_node (input_node ⟨q, "", "", "", "", hist, sid⟩))).error ≠ "" :=
    branch_error_ne _ _ h2
  refine ⟨?_, ?_, ?_, ?_, ?_⟩
  · show (runGraph llm ⟨q, "", "", "", "", hist, sid⟩).error ≠ ""
    unfold runGraph
    rw [output_error_eq, memory_error_eq]
    exact h3
  · show (runGraph llm ⟨q, "", "", "", "", hist, sid⟩).chat_history.length = _
    unfold runGraph
    rw [output_hist_eq, memory_hist_len, branch_hist_eq, decision_hist_eq, input_hist_eq]
  · show ∃ pre, (runGraph llm ⟨q, "", "", "", "", hist, sid⟩).chat_history = pre ++ _
    unfold runGraph
    rw [output_hist_eq]
    exact memory_hist_suffix _
  · intro hqt
    have hq2 : (decision_node (input_node ⟨q, "", "", "", "", hist, sid⟩)).query_type =
        "calculation" := by
      rw [← branch_qtype_eq llm (decision_node (input_node ⟨q, "", "", "", "", hist, sid⟩))]
      exact hqt
    rw [branch_eq_tool llm _ hq2]
    exact tool_response_ne _
  · intro hqt
    have hq2 : (decision_node (input_node ⟨q, "", "", "", "", hist, sid⟩)).query_type =
        "text" := by
      rw [← branch_qtype_eq llm (decision_node (input_node ⟨q, "", "", "", "", hist, sid⟩))]
      exact hqt
    have hne : ¬(decision_node (input_node ⟨q, "", "", "", "", hist, sid⟩)).query_type =
        "calculation" := by
      rw [hq2]
      intro hc
      exact absurd hc (by decide)
    rw [branch_eq_llm llm _ hne]
    exact llm_response_spec llm _

/-- Witness for C2's amended theorem: the empty query, concretely; it routes
to the text branch, so the witness also discharges the text-route
implication. -/
theorem c2_amended_witness :
    (validateQuery "").1 = false ∧
    (processQuery llmOk "" "session-1" []).error ≠ "" ∧
    (processQuery llmOk "" "session-1" []).chat_history.length =
      min (([] : List ChatMessage).length + 2) 20 ∧
    (∃ pre, (processQuery llmOk "" "session-1" []).chat_history =
      pre ++ [⟨"user",
               (branch_node llmOk (decision_node
                 (input_node ⟨"", "", "", "", "", [], "session-1"⟩))).user_query,
               some (branch_node llmOk (decision_node
                 (input_node ⟨"", "", "", "", "", [], "session-1"⟩))).query_type⟩,
              ⟨"assistant",
               (branch_node llmOk (decision_node
                 (input_node ⟨"", "", "", "", "", [], "session-1"⟩))).response, none⟩]) ∧
    (branch_node llmOk (decision_node
      (input_node ⟨"", "", "", "", "", [], "session-1"⟩))).query_type = "text" ∧
    ((∃ r, llmOk (textPromptRender
        (formatChatHistory (decision_node
          (input_node ⟨"", "", "", "", "", [], "session-1"⟩)).chat_history)
        (decision_node (input_node ⟨"", "", "", "", "", [], "session-1"⟩)).user_query) =
          Except.ok r ∧
      (branch_node llmOk (decision_node
        (input_node ⟨"", "", "", "", "", [], "session-1"⟩))).response = r) ∨
     (branch_node llmOk (decision_node
       (input_node ⟨"", "", "", "", "", [], "session-1"⟩))).response =
       "I apologize, but I encountered an error processing your request. Please try again.") :=
  ⟨by decide,
   (c2_amended_validation_reported_but_no_short_circuit llmOk "" "session-1" [] (by decide)).1,
   (c2_amended_validation_reported_but_no_short_circuit llmOk "" "session-1" [] (by decide)).2.1,
   (c2_amended_validation_reported_but_no_short_circuit llmOk "" "session-1" [] (by decide)).2.2.1,
   by decide,
   (c2_amended_validation_reported_but_no_short_circuit llmOk "" "session-1" []
     (by decide)).2.2.2.2 (by decide)⟩

end Chatbot
